import Mathlib

/-!
Shallow embedding of the request handler in `src/index.ts` of the
`openai-graphql-api` repository: a Workers-style GraphQL-over-POST relay in
front of the OpenAI chat-completions endpoint.  The handler is a single
`fetch(request, env)` function; we model it as a pure function of

  * the request method (a string),
  * the parsed JSON body (`none` when `request.json()` throws, i.e.
    malformed JSON; this is the only fault the outer `try` can see in
    practice, and it is caught there and mapped to status 500),
  * an oracle for the single possible outbound call to the OpenAI API
    (`UpstreamResult` below), and
  * the freshly generated `crypto.randomUUID()` and
    `new Date().toISOString()` values, passed in as opaque strings `rid`
    and `ts` (the code generates them at envelope construction time).

The function additionally returns the list of outbound requests actually
issued, so that "no outbound call is made" and "exactly this request is sent"
are provable statements.

JavaScript string primitives used by the code (`toLowerCase`, `trim`,
`includes`) are modelled by structurally recursive functions on the
character list of a `String`, so every definition evaluates by `decide`.
-/

namespace OpenAIGraphQLWorker

/-- Boolean test that `pat` occurs as a contiguous sublist of `l`.
Character-level model of JavaScript `String.prototype.includes`. -/
def charsInfixOf (pat : List Char) : List Char → Bool
  | [] => pat.isPrefixOf []
  | c :: cs => pat.isPrefixOf (c :: cs) || charsInfixOf pat cs

/-- Model of JavaScript `s.includes(pat)`: substring occurrence test. -/
def jsIncludes (s pat : String) : Bool :=
  charsInfixOf pat.data s.data

/-- Model of JavaScript `s.toLowerCase()`: character-wise lower-casing. -/
def jsToLower (s : String) : String :=
  ⟨s.data.map Char.toLower⟩

/-- Model of JavaScript `s.trim()`: strip leading and trailing whitespace. -/
def jsTrim (s : String) : String :=
  ⟨((s.data.dropWhile Char.isWhitespace).reverse.dropWhile
      Char.isWhitespace).reverse⟩

/-- The parsed POST body (interface `GraphQLRequest` in the source).
`query` is `none` when the field is absent (or `null`/`undefined`);
the code reads only `variables.input`, with `variables` defaulting to
the empty object, so the `variables` record is flattened to the single
optional field `input`. -/
structure GraphQLRequestBody where
  query : Option String
  input : Option String
  deriving DecidableEq

/-- One entry of the `messages` array sent to the OpenAI API. -/
structure OpenAIMessage where
  role : String
  content : String
  deriving DecidableEq

/-- The outbound request body built at lines 126-130 of `src/index.ts`. -/
structure OpenAIRequest where
  model : String
  messages : List OpenAIMessage
  max_tokens : Nat
  deriving DecidableEq

/-- What a JavaScript `catch (error)` clause can observe about a thrown
value: an `Error` instance carrying a `message` string, or any other
thrown value. -/
inductive JSThrown where
  | errObj (message : String)
  | nonError
  deriving DecidableEq

/-- Oracle for the single outbound `fetch` to the OpenAI endpoint.

  * `httpError status rawBody`: `openAIResponse.ok` is false; `status` is
    the HTTP status code and `rawBody` the text body read for logging.
  * `httpOk read`: `openAIResponse.ok` is true and `.json()` succeeded;
    `read` is the outcome of evaluating
    `openAIData.choices[0].message.content` — `.ok content` when the
    chain succeeds, `.error msg` when the access throws a `TypeError`
    (e.g. `choices` is empty, so `choices[0]` is `undefined`) whose
    `message` string is `msg` (a `TypeError` is an `Error` instance).
  * `thrown e`: the `fetch` itself or `.json()` threw `e`. -/
inductive UpstreamResult where
  | httpError (status : Nat) (rawBody : String)
  | httpOk (read : Except String String)
  | thrown (e : JSThrown)

/-- The `data.sendMessage` envelope (the spec's `ResultEnvelope`):
`{ result, requestId, timestamp, error }`, with `error` either `null`
(`none`) or a string. -/
structure SendMessagePayload where
  result : String
  requestId : String
  timestamp : String
  error : Option String
  deriving DecidableEq

/-- The `data` field of a `GraphQLResponse` as the code actually builds
it: either `{ status: msg }` or `{ sendMessage: payload }`. -/
inductive ResponseData where
  | status (message : String)
  | sendMessage (payload : SendMessagePayload)
  deriving DecidableEq

/-- The serialized response body: `null` (the OPTIONS preflight), an
`errors` array (each entry is its `message` string), or a `data` object. -/
inductive ResponseBody where
  | empty
  | errors (messages : List String)
  | data (d : ResponseData)
  deriving DecidableEq

/-- The observable outcome of one invocation: HTTP status, response body,
and the list of outbound OpenAI requests issued during the invocation. -/
structure HandlerResult where
  status : Nat
  body : ResponseBody
  upstreamCalls : List OpenAIRequest
  deriving DecidableEq

/-- Lines 108-189 of `src/index.ts`: the `sendMessage` branch.  Validates
`variables.input` (`!input || input.trim() === ''` — `none`, the empty
string, or a string trimming to empty all fail), then issues the outbound
call and maps its outcome into the envelope.  Returns the envelope and
the list of outbound requests made (empty when validation fails). -/
def runSendMessage (input : Option String) (upstream : UpstreamResult)
    (rid ts : String) : SendMessagePayload × List OpenAIRequest :=
  match input with
  | none => (⟨"", rid, ts, some "请提供输入内容"⟩, [])
  | some s =>
    if s = "" ∨ jsTrim s = "" then
      (⟨"", rid, ts, some "请提供输入内容"⟩, [])
    else
      let openAIRequest : OpenAIRequest :=
        { model := "gpt-3.5-turbo"
          messages := [{ role := "user", content := s }]
          max_tokens := 500 }
      match upstream with
      | .httpError status _rawBody =>
          (⟨"", rid, ts, some ("OpenAI API 错误: " ++ toString status)⟩,
           [openAIRequest])
      | .httpOk (.ok content) =>
          (⟨content, rid, ts, none⟩, [openAIRequest])
      | .httpOk (.error message) =>
          (⟨"", rid, ts, some message⟩, [openAIRequest])
      | .thrown (.errObj message) =>
          (⟨"", rid, ts, some message⟩, [openAIRequest])
      | .thrown .nonError =>
          (⟨"", rid, ts, some "处理请求时出错"⟩, [openAIRequest])

/-- The spec's tagged classification of a descriptor. -/
inductive ClassifiedOperation where
  | statusQuery
  | sendMessage
  | unsupported
  deriving DecidableEq

/-- The classifier implicit in lines 95-200 of `src/index.ts`: lower-case
the descriptor, test the StatusQuery markers first, then the SendMessage
markers; no match is `unsupported`. -/
def classify (descriptor : String) : ClassifiedOperation :=
  let query := jsToLower descriptor
  if jsIncludes query "query" && jsIncludes query "status" then
    .statusQuery
  else if jsIncludes query "mutation" && jsIncludes query "sendmessage" then
    .sendMessage
  else
    .unsupported

/-- The whole `fetch` handler of `src/index.ts` (lines 55-223).  The JS
check `!body.query` at line 82 is falsy for an absent field and for the
empty string alike, hence the `none` case and the `q = ""` test both take
the 400 path.  `parsedBody = none` models `request.json()` throwing,
caught by the outer `try` at line 210 (status 500). -/
def handleFetch (method : String) (parsedBody : Option GraphQLRequestBody)
    (upstream : UpstreamResult) (rid ts : String) : HandlerResult :=
  if method = "OPTIONS" then
    { status := 204, body := .empty, upstreamCalls := [] }
  else if method ≠ "POST" then
    { status := 405, body := .errors ["只支持 POST 请求"], upstreamCalls := [] }
  else
    match parsedBody with
    | none =>
        { status := 500, body := .errors ["处理请求时出错"], upstreamCalls := [] }
    | some body =>
      match body.query with
      | none =>
          { status := 400, body := .errors ["无效的 GraphQL 请求"],
            upstreamCalls := [] }
      | some q =>
        if q = "" then
          { status := 400, body := .errors ["无效的 GraphQL 请求"],
            upstreamCalls := [] }
        else
          let query := jsToLower q
          if jsIncludes query "query" && jsIncludes query "status" then
            { status := 200, body := .data (.status "GraphQL API 正常运行中"),
              upstreamCalls := [] }
          else if jsIncludes query "mutation" &&
              jsIncludes query "sendmessage" then
            let r := runSendMessage body.input upstream rid ts
            { status := 200, body := .data (.sendMessage r.1),
              upstreamCalls := r.2 }
          else
            { status := 200, body := .errors ["不支持的 GraphQL 查询"],
              upstreamCalls := [] }

/-- The spec's envelope invariant: exactly one of "the `result` field is a
non-empty string" and "the `error` field is present (non-null)" holds. -/
def exactlyOneOf (p : SendMessagePayload) : Prop :=
  (p.result ≠ "" ∧ p.error = none) ∨ (p.result = "" ∧ p.error ≠ none)

theorem classify_statusQuery_of (d : String)
    (h1 : jsIncludes (jsToLower d) "query" = true)
    (h2 : jsIncludes (jsToLower d) "status" = true) :
    classify d = .statusQuery := by
  simp [classify, h1, h2]

theorem classify_sendMessage_cond (d : String) (h : classify d = .sendMessage) :
    (jsIncludes (jsToLower d) "query" && jsIncludes (jsToLower d) "status") = false ∧
    (jsIncludes (jsToLower d) "mutation" && jsIncludes (jsToLower d) "sendmessage") = true := by
  simp only [classify] at h
  by_cases c1 : (jsIncludes (jsToLower d) "query" && jsIncludes (jsToLower d) "status") = true
  · rw [if_pos c1] at h; exact absurd h (by decide)
  · rw [if_neg c1] at h
    by_cases c2 : (jsIncludes (jsToLower d) "mutation" && jsIncludes (jsToLower d) "sendmessage") = true
    · exact ⟨by simpa using c1, c2⟩
    · rw [if_neg c2] at h; exact absurd h (by decide)

theorem classify_unsupported_cond (d : String) (h : classify d = .unsupported) :
    (jsIncludes (jsToLower d) "query" && jsIncludes (jsToLower d) "status") = false ∧
    (jsIncludes (jsToLower d) "mutation" && jsIncludes (jsToLower d) "sendmessage") = false := by
  simp only [classify] at h
  by_cases c1 : (jsIncludes (jsToLower d) "query" && jsIncludes (jsToLower d) "status") = true
  · rw [if_pos c1] at h; exact absurd h (by decide)
  · rw [if_neg c1] at h
    by_cases c2 : (jsIncludes (jsToLower d) "mutation" && jsIncludes (jsToLower d) "sendmessage") = true
    · rw [if_pos c2] at h; exact absurd h (by decide)
    · exact ⟨by simpa using c1, by simpa using c2⟩

theorem handleFetch_post_query (q : String) (hq : q ≠ "") (input : Option String)
    (up : UpstreamResult) (rid ts : String) :
    handleFetch "POST" (some ⟨some q, input⟩) up rid ts =
      if jsIncludes (jsToLower q) "query" && jsIncludes (jsToLower q) "status" then
        { status := 200, body := .data (.status "GraphQL API 正常运行中"),
          upstreamCalls := [] }
      else if jsIncludes (jsToLower q) "mutation" && jsIncludes (jsToLower q) "sendmessage" then
        { status := 200,
          body := .data (.sendMessage (runSendMessage input up rid ts).1),
          upstreamCalls := (runSendMessage input up rid ts).2 }
      else
        { status := 200, body := .errors ["不支持的 GraphQL 查询"],
          upstreamCalls := [] } := by
  simp only [handleFetch]
  rw [if_neg (by decide), if_neg (by decide), if_neg hq]

theorem handleFetch_sendMessage (d : String) (input : Option String)
    (up : UpstreamResult) (rid ts : String) (hd : d ≠ "")
    (hcl : classify d = .sendMessage) :
    handleFetch "POST" (some ⟨some d, input⟩) up rid ts =
      { status := 200,
        body := .data (.sendMessage (runSendMessage input up rid ts).1),
        upstreamCalls := (runSendMessage input up rid ts).2 } := by
  obtain ⟨c1, c2⟩ := classify_sendMessage_cond d hcl
  rw [handleFetch_post_query d hd input up rid ts, c1, c2]
  rw [if_neg (by decide), if_pos rfl]

theorem valid_input_cond (s : String) (hs : jsTrim s ≠ "") :
    ¬(s = "" ∨ jsTrim s = "") := by
  rintro (rfl | h)
  · exact hs rfl
  · exact hs h

theorem runSendMessage_httpError (s : String) (hs : jsTrim s ≠ "")
    (code : Nat) (raw rid ts : String) :
    runSendMessage (some s) (.httpError code raw) rid ts =
      (⟨"", rid, ts, some ("OpenAI API 错误: " ++ toString code)⟩,
       [{ model := "gpt-3.5-turbo",
          messages := [{ role := "user", content := s }], max_tokens := 500 }]) := by
  simp only [runSendMessage]
  rw [if_neg (valid_input_cond s hs)]

theorem runSendMessage_success (s : String) (hs : jsTrim s ≠ "")
    (content rid ts : String) :
    runSendMessage (some s) (.httpOk (.ok content)) rid ts =
      (⟨content, rid, ts, none⟩,
       [{ model := "gpt-3.5-turbo",
          messages := [{ role := "user", content := s }], max_tokens := 500 }]) := by
  simp only [runSendMessage]
  rw [if_neg (valid_input_cond s hs)]

theorem runSendMessage_readThrow (s : String) (hs : jsTrim s ≠ "")
    (m rid ts : String) :
    runSendMessage (some s) (.httpOk (.error m)) rid ts =
      (⟨"", rid, ts, some m⟩,
       [{ model := "gpt-3.5-turbo",
          messages := [{ role := "user", content := s }], max_tokens := 500 }]) := by
  simp only [runSendMessage]
  rw [if_neg (valid_input_cond s hs)]

theorem runSendMessage_thrownNonError (s : String) (hs : jsTrim s ≠ "")
    (rid ts : String) :
    runSendMessage (some s) (.thrown .nonError) rid ts =
      (⟨"", rid, ts, some "处理请求时出错"⟩,
       [{ model := "gpt-3.5-turbo",
          messages := [{ role := "user", content := s }], max_tokens := 500 }]) := by
  simp only [runSendMessage]
  rw [if_neg (valid_input_cond s hs)]

theorem runSendMessage_invalid (input : Option String) (up : UpstreamResult)
    (rid ts : String)
    (hinv : input = none ∨ ∃ s, input = some s ∧ jsTrim s = "") :
    runSendMessage input up rid ts =
      (⟨"", rid, ts, some "请提供输入内容"⟩, []) := by
  rcases hinv with rfl | ⟨s, rfl, hs⟩
  · rfl
  · simp only [runSendMessage]
    rw [if_pos (Or.inr hs)]

/-- C1: for every envelope the sendMessage handling constructs, exactly one
of "result is a non-empty string" and "error is present" holds — amended:
this dichotomy holds on every path except the success path for a 2xx
upstream response whose first choice content is the empty string, where
the code returns result = "" with error = null, so neither side holds. -/
theorem C1_envelope_dichotomy_amended (input : Option String)
    (up : UpstreamResult) (rid ts : String) :
    exactlyOneOf (runSendMessage input up rid ts).1 ∨
      ((runSendMessage input up rid ts).1.result = "" ∧
       (runSendMessage input up rid ts).1.error = none ∧
       up = .httpOk (.ok "")) := by
  by_cases hinv : input = none ∨ ∃ s, input = some s ∧ jsTrim s = ""
  · rw [runSendMessage_invalid input up rid ts hinv]
    left; right; exact ⟨rfl, by simp⟩
  · push_neg at hinv
    obtain ⟨s, rfl⟩ : ∃ s, input = some s := by
      cases input with
      | none => exact absurd rfl hinv.1
      | some s => exact ⟨s, rfl⟩
    have hs : jsTrim s ≠ "" := fun h => hinv.2 s rfl h
    cases up with
    | httpError code raw =>
        rw [runSendMessage_httpError s hs code raw rid ts]
        left; right; exact ⟨rfl, by simp⟩
    | httpOk r =>
        cases r with
        | ok content =>
            rw [runSendMessage_success s hs content rid ts]
            by_cases hc : content = ""
            · subst hc; right; exact ⟨rfl, rfl, rfl⟩
            · left; left; exact ⟨hc, rfl⟩
        | error m =>
            rw [runSendMessage_readThrow s hs m rid ts]
            left; right; exact ⟨rfl, by simp⟩
    | thrown e =>
        cases e with
        | errObj m =>
            have : runSendMessage (some s) (.thrown (.errObj m)) rid ts =
                (⟨"", rid, ts, some m⟩,
                 [{ model := "gpt-3.5-turbo",
                    messages := [{ role := "user", content := s }],
                    max_tokens := 500 }]) := by
              simp only [runSendMessage]
              rw [if_neg (valid_input_cond s hs)]
            rw [this]; left; right; exact ⟨rfl, by simp⟩
        | nonError =>
            rw [runSendMessage_thrownNonError s hs rid ts]
            left; right; exact ⟨rfl, by simp⟩

/-- C1 counterexample: a mutation sendMessage request answered by a 2xx
upstream response whose first choice content is the empty string yields
the envelope with result = "" and error = null, for which the claimed
"exactly one of the two" invariant fails. -/
theorem C1_counterexample :
    (handleFetch "POST" (some ⟨some "mutation sendMessage", some "hi"⟩)
        (.httpOk (.ok "")) "r" "t").body =
      .data (.sendMessage ⟨"", "r", "t", none⟩) ∧
    ¬ exactlyOneOf ⟨"", "r", "t", none⟩ := by
  constructor
  · decide
  · intro h
    rcases h with ⟨h1, _⟩ | ⟨_, h2⟩
    · exact h1 rfl
    · exact h2 rfl

/-- C2 (amended): every descriptor whose lower-cased form contains both
"query" and "status" classifies as StatusQuery, regardless of other
markers (first match wins); and every NON-EMPTY descriptor matching
neither rule classifies as Unsupported with response an errors array at
HTTP 200.  (The empty descriptor also classifies as Unsupported, but it
is rejected earlier by the falsiness check on `body.query` with status
400, so it never reaches classification.) -/
theorem C2_classification_rules :
    (∀ d : String, jsIncludes (jsToLower d) "query" = true →
        jsIncludes (jsToLower d) "status" = true →
        classify d = .statusQuery) ∧
    (∀ d : String, d ≠ "" → classify d = .unsupported →
      ∀ (input : Option String) (up : UpstreamResult) (rid ts : String),
        handleFetch "POST" (some ⟨some d, input⟩) up rid ts =
          { status := 200, body := .errors ["不支持的 GraphQL 查询"],
            upstreamCalls := [] }) := by
  constructor
  · exact classify_statusQuery_of
  · intro d hd hcl input up rid ts
    obtain ⟨c1, c2⟩ := classify_unsupported_cond d hcl
    rw [handleFetch_post_query d hd input up rid ts, c1, c2]
    rfl

/-- C2 witness: a descriptor with all four markers classifies as
StatusQuery, and a concrete unrecognized descriptor gets the errors
array at status 200. -/
theorem C2_witness :
    classify "query status mutation sendmessage" = .statusQuery ∧
    handleFetch "POST" (some ⟨some "hello", none⟩) (.thrown .nonError)
        "r" "t" =
      { status := 200, body := .errors ["不支持的 GraphQL 查询"],
        upstreamCalls := [] } :=
  ⟨C2_classification_rules.1 "query status mutation sendmessage"
      (by decide) (by decide),
   C2_classification_rules.2 "hello" (by decide) (by decide) none
      (.thrown .nonError) "r" "t"⟩

/-- C2 counterexample: the empty descriptor classifies as Unsupported,
yet the handler answers it with status 400 (the invalid-request path),
not with the claimed errors-array-at-200 response. -/
theorem C2_counterexample :
    classify "" = .unsupported ∧
    (handleFetch "POST" (some ⟨some "", none⟩) (.thrown .nonError)
        "r" "t").status = 400 ∧
    (handleFetch "POST" (some ⟨some "", none⟩) (.thrown .nonError)
        "r" "t").status ≠ 200 := by
  refine ⟨by decide, by decide, by decide⟩

/-- C3: whenever the sendMessage branch is taken and `variables.input` is
absent, empty, or whitespace-only, the response is status 200 with the
fixed input-required error, an empty result, and an empty list of
outbound upstream calls — validation runs strictly before the call. -/
theorem C3_validation_before_upstream_call (d : String)
    (input : Option String) (up : UpstreamResult) (rid ts : String)
    (hd : d ≠ "") (hcl : classify d = .sendMessage)
    (hinv : input = none ∨ ∃ s, input = some s ∧ jsTrim s = "") :
    handleFetch "POST" (some ⟨some d, input⟩) up rid ts =
      { status := 200,
        body := .data (.sendMessage ⟨"", rid, ts, some "请提供输入内容"⟩),
        upstreamCalls := [] } := by
  rw [handleFetch_sendMessage d input up rid ts hd hcl,
    runSendMessage_invalid input up rid ts hinv]

/-- C3 witness: whitespace-only input on a concrete mutation request. -/
theorem C3_witness :
    handleFetch "POST" (some ⟨some "mutation sendMessage", some "   "⟩)
        (.thrown .nonError) "r" "t" =
      { status := 200,
        body := .data (.sendMessage ⟨"", "r", "t", some "请提供输入内容"⟩),
        upstreamCalls := [] } :=
  C3_validation_before_upstream_call "mutation sendMessage" (some "   ")
    (.thrown .nonError) "r" "t" (by decide) (by decide)
    (Or.inr ⟨"   ", rfl, by decide⟩)

/-- C4: when the upstream call answers with a non-2xx status, the
envelope's error is the fixed message embedding the numeric status code,
the result is the empty string, and the response is independent of the
raw upstream body (the body is only logged, never surfaced). -/
theorem C4_upstream_rejection_surfaces_code_only (d s : String)
    (code : Nat) (raw rid ts : String)
    (hd : d ≠ "") (hcl : classify d = .sendMessage) (hs : jsTrim s ≠ "") :
    (handleFetch "POST" (some ⟨some d, some s⟩) (.httpError code raw)
        rid ts).body =
      .data (.sendMessage
        ⟨"", rid, ts, some ("OpenAI API 错误: " ++ toString code)⟩) ∧
    (∃ pre suf : String,
      "OpenAI API 错误: " ++ toString code = pre ++ toString code ++ suf) ∧
    (∀ raw2 : String,
      handleFetch "POST" (some ⟨some d, some s⟩) (.httpError code raw)
          rid ts =
      handleFetch "POST" (some ⟨some d, some s⟩) (.httpError code raw2)
          rid ts) := by
  refine ⟨?_, ⟨"OpenAI API 错误: ", "", by rw [String.append_empty]⟩, ?_⟩
  · rw [handleFetch_sendMessage d (some s) (.httpError code raw) rid ts hd hcl,
      runSendMessage_httpError s hs code raw rid ts]
  · intro raw2
    rw [handleFetch_sendMessage d (some s) (.httpError code raw) rid ts hd hcl,
      handleFetch_sendMessage d (some s) (.httpError code raw2) rid ts hd hcl,
      runSendMessage_httpError s hs code raw rid ts,
      runSendMessage_httpError s hs code raw2 rid ts]

/-- C4 witness: upstream answers 429 with a secret body; the caller sees
only the status code. -/
theorem C4_witness :
    (handleFetch "POST" (some ⟨some "mutation sendMessage", some "hi"⟩)
        (.httpError 429 "secret upstream body") "r" "t").body =
      .data (.sendMessage ⟨"", "r", "t", some "OpenAI API 错误: 429"⟩) := by
  have h := C4_upstream_rejection_surfaces_code_only "mutation sendMessage"
    "hi" 429 "secret upstream body" "r" "t" (by decide) (by decide) (by decide)
  exact h.1

/-- C5: once the method is POST, the body parses, and a non-empty query
is present, the HTTP status is 200 for every inner outcome. -/
theorem C5_accepted_request_always_200 (q : String) (hq : q ≠ "")
    (input : Option String) (up : UpstreamResult) (rid ts : String) :
    (handleFetch "POST" (some ⟨some q, input⟩) up rid ts).status = 200 := by
  rw [handleFetch_post_query q hq input up rid ts]
  split
  · rfl
  · split <;> rfl

/-- C5 witness: a concrete accepted request (unsupported descriptor, so
an inner failure) still gets HTTP status 200. -/
theorem C5_witness :
    (handleFetch "POST" (some ⟨some "hello", none⟩) (.thrown .nonError)
        "r" "t").status = 200 :=
  C5_accepted_request_always_200 "hello" (by decide) none (.thrown .nonError)
    "r" "t"

/-- C6: every sendMessage invocation with valid input issues exactly one
upstream request, with the fixed model identifier, a single user-role
message carrying the input verbatim, and max_tokens 500. -/
theorem C6_upstream_request_shape (d s : String) (up : UpstreamResult)
    (rid ts : String)
    (hd : d ≠ "") (hcl : classify d = .sendMessage) (hs : jsTrim s ≠ "") :
    (handleFetch "POST" (some ⟨some d, some s⟩) up rid ts).upstreamCalls =
      [{ model := "gpt-3.5-turbo",
         messages := [{ role := "user", content := s }],
         max_tokens := 500 }] := by
  rw [handleFetch_sendMessage d (some s) up rid ts hd hcl]
  show (runSendMessage (some s) up rid ts).2 = _
  cases up with
  | httpError code raw => rw [runSendMessage_httpError s hs code raw rid ts]
  | httpOk r =>
      cases r with
      | ok content => rw [runSendMessage_success s hs content rid ts]
      | error m => rw [runSendMessage_readThrow s hs m rid ts]
  | thrown e =>
      cases e with
      | errObj m =>
          simp only [runSendMessage]
          rw [if_neg (valid_input_cond s hs)]
      | nonError => rw [runSendMessage_thrownNonError s hs rid ts]

/-- C6 witness: the input "  hi  " is sent verbatim, untrimmed. -/
theorem C6_witness :
    (handleFetch "POST" (some ⟨some "mutation sendMessage", some "  hi  "⟩)
        (.httpOk (.ok "ok")) "r" "t").upstreamCalls =
      [{ model := "gpt-3.5-turbo",
         messages := [{ role := "user", content := "  hi  " }],
         max_tokens := 500 }] :=
  C6_upstream_request_shape "mutation sendMessage" "  hi  "
    (.httpOk (.ok "ok")) "r" "t" (by decide) (by decide) (by decide)

/-- C7: any method other than POST and OPTIONS is rejected with status
405 and a single only-POST-supported error, independently of the request
body and without any upstream call; OPTIONS gets status 204 with no
body and no upstream call. -/
theorem C7_method_gate :
    (∀ m : String, m ≠ "POST" → m ≠ "OPTIONS" →
      ∀ (b : Option GraphQLRequestBody) (up : UpstreamResult)
        (rid ts : String),
        handleFetch m b up rid ts =
          { status := 405, body := .errors ["只支持 POST 请求"],
            upstreamCalls := [] }) ∧
    (∀ (b : Option GraphQLRequestBody) (up : UpstreamResult)
       (rid ts : String),
      handleFetch "OPTIONS" b up rid ts =
        { status := 204, body := .empty, upstreamCalls := [] }) := by
  constructor
  · intro m hp ho b up rid ts
    unfold handleFetch
    rw [if_neg ho, if_pos hp]
  · intro b up rid ts
    unfold handleFetch
    rw [if_pos rfl]

/-- C7 witness: a GET request is rejected with 405 no matter the body. -/
theorem C7_witness :
    handleFetch "GET" (some ⟨some "query status", none⟩) (.thrown .nonError)
        "r" "t" =
      { status := 405, body := .errors ["只支持 POST 请求"],
        upstreamCalls := [] } :=
  C7_method_gate.1 "GET" (by decide) (by decide)
    (some ⟨some "query status", none⟩) (.thrown .nonError) "r" "t"

/-- C8: a POST whose parsed body has no query field gets status 400 with
the invalid-request error; a POST whose body fails to parse (the fault
the outer catch-all sees) gets status 500 with the generic error.  In
both cases no upstream call is made; the handler is a total function, so
no exception escapes the outermost boundary. -/
theorem C8_missing_query_and_parse_fault :
    (∀ (input : Option String) (up : UpstreamResult) (rid ts : String),
      handleFetch "POST" (some ⟨none, input⟩) up rid ts =
        { status := 400, body := .errors ["无效的 GraphQL 请求"],
          upstreamCalls := [] }) ∧
    (∀ (up : UpstreamResult) (rid ts : String),
      handleFetch "POST" none up rid ts =
        { status := 500, body := .errors ["处理请求时出错"],
          upstreamCalls := [] }) := by
  exact ⟨fun input up rid ts => rfl, fun up rid ts => rfl⟩

/-- C9: a POST whose query field is present but equal to the empty string
takes the same 400 path as an absent query, and in particular never
produces the Unsupported errors-with-200 response. -/
theorem C9_empty_query_is_400 (input : Option String) (up : UpstreamResult)
    (rid ts : String) :
    handleFetch "POST" (some ⟨some "", input⟩) up rid ts =
      handleFetch "POST" (some ⟨none, input⟩) up rid ts ∧
    (handleFetch "POST" (some ⟨some "", input⟩) up rid ts).status = 400 ∧
    (handleFetch "POST" (some ⟨some "", input⟩) up rid ts).body ≠
      .errors ["不支持的 GraphQL 查询"] := by
  refine ⟨rfl, rfl, ?_⟩
  show ResponseBody.errors ["无效的 GraphQL 请求"] ≠
    ResponseBody.errors ["不支持的 GraphQL 查询"]
  decide

/-- C10: a 2xx upstream response on which reading
`choices[0].message.content` throws (e.g. zero choices) is caught inside
the sendMessage block: the caller still gets HTTP 200 and the envelope
has an empty result and, as error, the thrown `Error`'s message; a
thrown non-`Error` value yields the generic fallback message instead. -/
theorem C10_choices_read_throw_caught (d s m : String) (rid ts : String)
    (hd : d ≠ "") (hcl : classify d = .sendMessage) (hs : jsTrim s ≠ "") :
    (handleFetch "POST" (some ⟨some d, some s⟩) (.httpOk (.error m))
        rid ts).status = 200 ∧
    (handleFetch "POST" (some ⟨some d, some s⟩) (.httpOk (.error m))
        rid ts).body =
      .data (.sendMessage ⟨"", rid, ts, some m⟩) ∧
    (handleFetch "POST" (some ⟨some d, some s⟩) (.thrown .nonError)
        rid ts).body =
      .data (.sendMessage ⟨"", rid, ts, some "处理请求时出错"⟩) := by
  refine ⟨?_, ?_, ?_⟩
  · rw [handleFetch_sendMessage d (some s) (.httpOk (.error m)) rid ts hd hcl]
  · rw [handleFetch_sendMessage d (some s) (.httpOk (.error m)) rid ts hd hcl,
      runSendMessage_readThrow s hs m rid ts]
  · rw [handleFetch_sendMessage d (some s) (.thrown .nonError) rid ts hd hcl,
      runSendMessage_thrownNonError s hs rid ts]

/-- C10 witness: concrete mutation request with a 2xx upstream answer
whose choices array is empty (the read throws a TypeError). -/
theorem C10_witness :
    (handleFetch "POST" (some ⟨some "mutation sendMessage", some "hi"⟩)
        (.httpOk (.error "Cannot read properties of undefined"))
        "r" "t").body =
      .data (.sendMessage
        ⟨"", "r", "t", some "Cannot read properties of undefined"⟩) :=
  (C10_choices_read_throw_caught "mutation sendMessage" "hi"
    "Cannot read properties of undefined" "r" "t"
    (by decide) (by decide) (by decide)).2.1

end OpenAIGraphQLWorker
